import Mathlib

/-!
Shallow embedding of the host-identity resolver of `src/main.go`
(`getSystemInfo`) together with the pieces of the Go standard library it
calls (`net.IP.To4`, `net.IP.IsLoopback`, `net.IP.String` on the IPv4 path,
`net.HardwareAddr.String`).

Modelling conventions:
- an IP address is its byte list (`List Nat`), 4 bytes for IPv4 or 16 bytes
  for IPv6, as in Go;
- a `net.Addr` as returned by `Interface.Addrs()` either is an `*net.IPNet`
  (the type assertion in the source succeeds) or is some other address type;
- `Interface.Addrs()` returning an error is modelled by `addrs = none`;
- `os.Hostname()` failure is modelled by the input `Option String` being
  `none` (Go returns the empty string alongside the error, and the source
  discards the error);
- `net.Interfaces()` failure is modelled by the input `Option (List Interface)`
  being `none`; the source calls `log.Fatal` there, which terminates the
  process, modelled by the result `none`.
-/

/-- Bytes 0..11 of an IPv4-in-IPv6 address (ten zero bytes then 0xff 0xff),
as checked by Go `net.IP.To4` for 16-byte addresses. -/
def v4InV6Header : List Nat := [0, 0, 0, 0, 0, 0, 0, 0, 0, 0, 255, 255]

/-- Go `net.IP.To4`: a 4-byte address is returned as is; a 16-byte address
that starts with `v4InV6Header` yields its last 4 bytes; anything else
yields `none` (Go: nil). -/
def to4 (ip : List Nat) : Option (List Nat) :=
  if ip.length = 4 then some ip
  else if ip.length = 16 ∧ ip.take 12 = v4InV6Header then some (ip.drop 12)
  else none

/-- The 16-byte IPv6 loopback address ::1. -/
def ipv6Loopback : List Nat := [0, 0, 0, 0, 0, 0, 0, 0, 0, 0, 0, 0, 0, 0, 0, 1]

/-- Go `net.IP.IsLoopback`: an IPv4(-mapped) address is loopback iff its
first byte is 127; otherwise compare with ::1. -/
def isLoopback (ip : List Nat) : Bool :=
  match to4 ip with
  | some p4 => p4.headD 0 == 127
  | none => ip == ipv6Loopback

/-- Go `net.IP.String` on the path taken by the source: when `To4`
succeeds, the dotted-quad decimal form. The source only calls `String`
after checking `To4() != nil`, so the 16-byte textual form is never
needed; the fallback arm is left empty. -/
def ipToString (ip : List Nat) : String :=
  match to4 ip with
  | some [a, b, c, d] =>
      Nat.repr a ++ "." ++ Nat.repr b ++ "." ++ Nat.repr c ++ "." ++ Nat.repr d
  | _ => ""

/-- The digit table of Go `net.HardwareAddr.String`, the string constant
`hexDigit` of the net package, as its character list. -/
def hexDigits : List Char := "0123456789abcdef".data

/-- One byte as two lowercase hex digits (Go writes `hexDigit[b>>4]` then
`hexDigit[b&0xF]`). -/
def byteToHex (b : Nat) : String :=
  String.mk [hexDigits.getD (b / 16) '0', hexDigits.getD (b % 16) '0']

/-- Go `net.HardwareAddr.String`: empty string for an empty address,
otherwise the bytes in hex separated by colons. -/
def macToString (bs : List Nat) : String :=
  String.intercalate ":" (bs.map byteToHex)

/-- A `net.Addr` of an interface: either an `*net.IPNet` (the type
assertion `addr.(*net.IPNet)` in the source succeeds, carrying the IP
bytes; the mask is unused by the source) or any other address type. -/
inductive Addr where
  | ipNet (ip : List Nat) : Addr
  | other : Addr
deriving DecidableEq

/-- A `net.Interface` as the source uses it: its hardware address bytes and
the result of `Addrs()` (`none` models `Addrs()` returning an error). -/
structure Interface where
  hardwareAddr : List Nat
  addrs : Option (List Addr)
deriving DecidableEq

/-- The selection test of the source inner loop:
`ok && !ipNet.IP.IsLoopback() && ipNet.IP.To4() != nil`. -/
def qualifies : Addr → Bool
  | Addr.ipNet ip => !isLoopback ip && (to4 ip).isSome
  | Addr.other => false

/-- The inner loop of `getSystemInfo`: scan the address list and return the
IP bytes of the first address passing `qualifies`, if any. -/
def firstQualIp : List Addr → Option (List Nat)
  | [] => none
  | Addr.ipNet ip :: rest =>
      if !isLoopback ip && (to4 ip).isSome then some ip else firstQualIp rest
  | Addr.other :: rest => firstQualIp rest

/-- One iteration of the outer loop body on the running
(ipAddress, macAddress) state: an `Addrs()` error leaves the state
unchanged (`continue`); otherwise the first qualifying address, when one
exists, overwrites both fields with its IP string and the owning
interface hardware-address string. -/
def step (s : String × String) (i : Interface) : String × String :=
  match i.addrs with
  | none => s
  | some as =>
      match firstQualIp as with
      | none => s
      | some ip => (ipToString ip, macToString i.hardwareAddr)

/-- The outer loop of `getSystemInfo`: after each interface, stop when both
fields are non-empty (`if ipAddress != "" && macAddress != "" { break }`). -/
def scanLoop : (String × String) → List Interface → String × String
  | s, [] => s
  | s, i :: rest =>
      if (step s i).1 ≠ "" ∧ (step s i).2 ≠ "" then step s i
      else scanLoop (step s i) rest

/-- The hostname actually used: Go `os.Hostname()` returns the empty
string alongside an error, and the source discards the error. -/
def hostnameOf (h : Option String) : String := h.getD ""

/-- `getSystemInfo` of `src/main.go`. Inputs are the ambient OS query
results: the hostname (or `none` on failure) and the interface list (or
`none` when `net.Interfaces()` fails). The result `none` models process
termination by `log.Fatal`. -/
def getSystemInfo (h : Option String) (ifres : Option (List Interface)) :
    Option (String × String × String) :=
  match ifres with
  | none => none
  | some ifaces =>
      let s := scanLoop ("", "") ifaces
      some (hostnameOf h, s.1, s.2)

/-- An interface owns a qualifying address: its `Addrs()` call succeeds and
some address in the list passes `qualifies`. -/
def hasQual (i : Interface) : Prop :=
  ∃ as, i.addrs = some as ∧ (firstQualIp as).isSome

instance (i : Interface) : Decidable (hasQual i) := by
  unfold hasQual
  match h : i.addrs with
  | none => exact isFalse (by simp [h])
  | some as => exact decidable_of_iff ((firstQualIp as).isSome) (by simp [h])

/-- The outer loop never breaks while running a given interface list from a
given state: after each iteration at least one field is still empty. -/
def noBreakRun : (String × String) → List Interface → Prop
  | _, [] => True
  | s, i :: rest =>
      ¬((step s i).1 ≠ "" ∧ (step s i).2 ≠ "") ∧ noBreakRun (step s i) rest

lemma to4_length {ip p4 : List Nat} (h : to4 ip = some p4) : p4.length = 4 := by
  unfold to4 at h
  split at h
  · cases h; omega
  · split at h
    · cases h
      rename_i h16
      simp [List.length_drop, h16.1]
    · cases h

lemma ipToString_ne_empty {ip : List Nat} (h : (to4 ip).isSome) :
    ipToString ip ≠ "" := by
  obtain ⟨p4, hp4⟩ := Option.isSome_iff_exists.mp h
  have hlen := to4_length hp4
  match p4, hlen with
  | [a, b, c, d], _ =>
    unfold ipToString
    rw [hp4]
    intro habs
    have hd := congrArg String.data habs
    simp [String.data_append] at hd

lemma firstQualIp_to4_isSome {as : List Addr} {ip : List Nat}
    (h : firstQualIp as = some ip) : (to4 ip).isSome := by
  induction as with
  | nil => cases h
  | cons a rest ih =>
    cases a with
    | ipNet q =>
      unfold firstQualIp at h
      split at h
      · cases h
        rename_i hq
        exact (Bool.and_eq_true _ _ ▸ hq).2
      · exact ih h
    | other => exact ih h

lemma firstQualIp_eq_none {as : List Addr}
    (h : ∀ a ∈ as, qualifies a = false) : firstQualIp as = none := by
  induction as with
  | nil => rfl
  | cons a rest ih =>
    cases a with
    | ipNet q =>
      have hq := h (Addr.ipNet q) (List.mem_cons_self _ _)
      simp only [qualifies] at hq
      unfold firstQualIp
      rw [hq]
      simp only [Bool.false_eq_true, if_false]
      exact ih fun a ha => h a (List.mem_cons_of_mem _ ha)
    | other =>
      unfold firstQualIp
      exact ih fun a ha => h a (List.mem_cons_of_mem _ ha)

lemma step_neutral {i : Interface} (hni : ¬ hasQual i) (s : String × String) :
    step s i = s := by
  cases h : i.addrs with
  | none => simp [step, h]
  | some as =>
    cases hf : firstQualIp as with
    | none => simp [step, h, hf]
    | some ip => exact absurd ⟨as, h, by simp [hf]⟩ hni

lemma scanLoop_cons (s : String × String) (i : Interface) (rest : List Interface) :
    scanLoop s (i :: rest) =
      if (step s i).1 ≠ "" ∧ (step s i).2 ≠ "" then step s i
      else scanLoop (step s i) rest := rfl

lemma scanLoop_neutral {l : List Interface}
    (hl : ∀ i ∈ l, ¬ hasQual i) (s : String × String) :
    scanLoop s l = s := by
  induction l generalizing s with
  | nil => rfl
  | cons i rest ih =>
    rw [scanLoop_cons, step_neutral (hl i (List.mem_cons_self _ _)) s]
    split
    · rfl
    · exact ih (fun j hj => hl j (List.mem_cons_of_mem _ hj)) s

lemma scanLoop_append_of_noBreak {pre : List Interface} {s : String × String}
    (hnb : noBreakRun s pre) (rest : List Interface) :
    scanLoop s (pre ++ rest) = scanLoop (List.foldl step s pre) rest := by
  induction pre generalizing s with
  | nil => rfl
  | cons i pre ih =>
    obtain ⟨hni, hnb'⟩ := hnb
    rw [List.cons_append, scanLoop_cons, if_neg hni, List.foldl_cons]
    exact ih hnb'

lemma scanLoop_middle_neutral {j : Interface} (hj : ∀ s, step s j = s)
    (pre post : List Interface) (s : String × String)
    (hs : ¬(s.1 ≠ "" ∧ s.2 ≠ "")) :
    scanLoop s (pre ++ j :: post) = scanLoop s (pre ++ post) := by
  induction pre generalizing s with
  | nil =>
    rw [List.nil_append, List.nil_append, scanLoop_cons, hj s, if_neg hs]
  | cons i pre ih =>
    rw [List.cons_append, List.cons_append, scanLoop_cons, scanLoop_cons]
    by_cases hc : (step s i).1 ≠ "" ∧ (step s i).2 ≠ ""
    · rw [if_pos hc, if_pos hc]
    · rw [if_neg hc, if_neg hc]
      exact ih (step s i) hc

lemma getSystemInfo_some (h : Option String) (l : List Interface) :
    getSystemInfo h (some l) =
      some (hostnameOf h, (scanLoop ("", "") l).1, (scanLoop ("", "") l).2) := rfl

lemma noBreakRun_of_neutral {pre : List Interface}
    (hpre : ∀ j ∈ pre, ¬ hasQual j) {s : String × String}
    (hs : ¬(s.1 ≠ "" ∧ s.2 ≠ "")) : noBreakRun s pre := by
  induction pre generalizing s with
  | nil => trivial
  | cons i pre ih =>
    refine ⟨?_, ?_⟩ <;> rw [step_neutral (hpre i (List.mem_cons_self _ _)) s]
    · exact hs
    · exact ih (fun j hj => hpre j (List.mem_cons_of_mem _ hj)) hs

lemma foldl_step_neutral {pre : List Interface}
    (hpre : ∀ j ∈ pre, ¬ hasQual j) (s : String × String) :
    List.foldl step s pre = s := by
  induction pre generalizing s with
  | nil => rfl
  | cons i pre ih =>
    rw [List.foldl_cons, step_neutral (hpre i (List.mem_cons_self _ _)) s]
    exact ih (fun j hj => hpre j (List.mem_cons_of_mem _ hj)) s

lemma step_cases (s : String × String) (i : Interface) :
    step s i = s ∨ ∃ as ip, i.addrs = some as ∧ firstQualIp as = some ip ∧
      step s i = (ipToString ip, macToString i.hardwareAddr) := by
  cases h : i.addrs with
  | none => left; simp [step, h]
  | some as =>
    cases hf : firstQualIp as with
    | none => left; simp [step, h, hf]
    | some ip => right; exact ⟨as, ip, rfl, hf, by simp [step, h, hf]⟩

/-- The pair `s` was assigned from one interface of `l`: that interface has
a first qualifying address, `s.1` is its IP string and `s.2` the hardware
address string of the same interface. -/
def pairFrom (l : List Interface) (s : String × String) : Prop :=
  ∃ i, i ∈ l ∧ ∃ as ip, i.addrs = some as ∧ firstQualIp as = some ip ∧
    s.1 = ipToString ip ∧ s.2 = macToString i.hardwareAddr

lemma pairFrom_mono {l l' : List Interface} (hsub : ∀ i ∈ l, i ∈ l')
    {s : String × String} (hp : pairFrom l s) : pairFrom l' s := by
  obtain ⟨i, hi, rest⟩ := hp
  exact ⟨i, hsub i hi, rest⟩

lemma scanLoop_pairFrom (l : List Interface) :
    ∀ (hist : List Interface) (s : String × String),
    (s.1 ≠ "" → pairFrom hist s) →
    (scanLoop s l).1 ≠ "" → pairFrom (hist ++ l) (scanLoop s l) := by
  induction l with
  | nil =>
    intro hist s hs hne
    exact pairFrom_mono (fun i hi => List.mem_append_left _ hi) (hs hne)
  | cons i rest ih =>
    intro hist s hs hne
    have hstep : (step s i).1 ≠ "" → pairFrom (hist ++ [i]) (step s i) := by
      rcases step_cases s i with heq | ⟨as, ip, ha, hf, heq⟩
      · rw [heq]
        intro h1
        exact pairFrom_mono (fun j hj => List.mem_append_left _ hj) (hs h1)
      · rw [heq]
        intro _
        exact ⟨i, List.mem_append_right _ (List.mem_singleton.mpr rfl),
          as, ip, ha, hf, rfl, rfl⟩
    have hassoc : (hist ++ [i]) ++ rest = hist ++ i :: rest := by simp
    rw [scanLoop_cons] at hne ⊢
    by_cases hc : (step s i).1 ≠ "" ∧ (step s i).2 ≠ ""
    · rw [if_pos hc] at hne ⊢
      exact pairFrom_mono
        (fun j hj => by rw [← hassoc]; exact List.mem_append_left _ hj)
        (hstep hc.1)
    · rw [if_neg hc] at hne ⊢
      have := ih (hist ++ [i]) (step s i) hstep hne
      rwa [hassoc] at this

/-- A loopback-only interface, as the usual `lo` device: the single address
127.0.0.1. -/
def loIface : Interface := ⟨[1, 2, 3], some [Addr.ipNet [127, 0, 0, 1]]⟩

/-- An interface owning the address 192.0.2.10, hardware address
aa:bb:cc:dd:ee:ff. -/
def ethIface : Interface :=
  ⟨[170, 187, 204, 221, 238, 255], some [Addr.ipNet [192, 0, 2, 10]]⟩

/-- An interface owning the qualifying address 10.0.0.1 but with an empty
hardware address, as for a tunnel device. -/
def bareIface : Interface := ⟨[], some [Addr.ipNet [10, 0, 0, 1]]⟩

/-- A second interface with a qualifying address 10.0.0.2, hardware address
aa:bb:cc:dd:ee:ff. -/
def eth2Iface : Interface :=
  ⟨[170, 187, 204, 221, 238, 255], some [Addr.ipNet [10, 0, 0, 2]]⟩

/-- An interface owning only the IPv6 address 2001:db8::1. -/
def v6Iface : Interface :=
  ⟨[9, 9, 9, 9, 9, 9],
   some [Addr.ipNet [32, 1, 13, 184, 0, 0, 0, 0, 0, 0, 0, 0, 0, 0, 0, 1]]⟩

/-- An interface whose `Addrs()` call fails. -/
def errIface : Interface := ⟨[1, 2, 3], none⟩

/-- C1 (amended): given an interface list split as `pre ++ i :: post` where
no interface of `pre` owns a qualifying (non-loopback IPv4) address, `i`
owns one, and the hardware-address string of `i` is non-empty, the
resolver returns the IP string of the first qualifying address of `i`
together with the hardware-address string of `i`, regardless of what
follows. As originally stated (without the non-empty hardware-address
proviso) the claim fails, see the counterexample. -/
theorem getSystemInfo_first_qualifying (h : Option String)
    (pre post : List Interface) (i : Interface) (as : List Addr) (ip : List Nat)
    (hpre : ∀ j ∈ pre, ¬ hasQual j)
    (haddrs : i.addrs = some as)
    (hfirst : firstQualIp as = some ip)
    (hmac : macToString i.hardwareAddr ≠ "") :
    getSystemInfo h (some (pre ++ i :: post)) =
      some (hostnameOf h, ipToString ip, macToString i.hardwareAddr) := by
  have hip : ipToString ip ≠ "" := ipToString_ne_empty (firstQualIp_to4_isSome hfirst)
  have hstep : step ("", "") i = (ipToString ip, macToString i.hardwareAddr) := by
    simp [step, haddrs, hfirst]
  have hnb : noBreakRun ("", "") pre := noBreakRun_of_neutral hpre (by simp)
  rw [getSystemInfo_some, scanLoop_append_of_noBreak hnb,
    foldl_step_neutral hpre, scanLoop_cons, hstep, if_pos ⟨hip, hmac⟩]

/-- Witness for C1: loopback first, then the interface owning 192.0.2.10
with hardware address aa:bb:cc:dd:ee:ff, then one more qualifying
interface; the pair of the first qualifying interface is returned. -/
theorem getSystemInfo_first_qualifying_witness :
    getSystemInfo (some "host") (some ([loIface] ++ ethIface :: [eth2Iface])) =
      some ("host", "192.0.2.10", "aa:bb:cc:dd:ee:ff") :=
  getSystemInfo_first_qualifying (some "host") [loIface] [eth2Iface] ethIface
    [Addr.ipNet [192, 0, 2, 10]] [192, 0, 2, 10]
    (by decide) rfl (by decide) (by decide)

/-- Counterexample to C1 as stated: the first enumerated qualifying
interface owns 10.0.0.1 but its hardware-address string is empty, so the
loop keeps going and the resolver returns the pair of the second
qualifying interface, not the pair of the first one. -/
theorem getSystemInfo_first_qualifying_counterexample :
    hasQual bareIface ∧
    getSystemInfo none (some [bareIface, eth2Iface]) =
      some ("", "10.0.0.2", "aa:bb:cc:dd:ee:ff") ∧
    (("10.0.0.2" : String), ("aa:bb:cc:dd:ee:ff" : String)) ≠
      (ipToString [10, 0, 0, 1], macToString bareIface.hardwareAddr) :=
  ⟨by decide, by decide, by decide⟩

/-- C2: once the running state after an interface has both fields
non-empty, the resolver result no longer depends on the remaining
interfaces (the loop breaks); when one of the two fields is still empty
after that interface, the loop continues scanning the remaining
interfaces from the current state. -/
theorem getSystemInfo_early_exit (h : Option String)
    (pre post post' : List Interface) (i : Interface)
    (hnb : noBreakRun ("", "") pre) :
    (((step (List.foldl step ("", "") pre) i).1 ≠ "" ∧
      (step (List.foldl step ("", "") pre) i).2 ≠ "") →
        getSystemInfo h (some (pre ++ i :: post)) =
          getSystemInfo h (some (pre ++ i :: post'))) ∧
    (¬((step (List.foldl step ("", "") pre) i).1 ≠ "" ∧
       (step (List.foldl step ("", "") pre) i).2 ≠ "") →
        getSystemInfo h (some (pre ++ i :: post)) =
          some (hostnameOf h,
            (scanLoop (step (List.foldl step ("", "") pre) i) post).1,
            (scanLoop (step (List.foldl step ("", "") pre) i) post).2)) := by
  constructor
  · intro hb
    rw [getSystemInfo_some, getSystemInfo_some,
      scanLoop_append_of_noBreak hnb, scanLoop_append_of_noBreak hnb,
      scanLoop_cons, scanLoop_cons, if_pos hb, if_pos hb]
  · intro hb
    rw [getSystemInfo_some, scanLoop_append_of_noBreak hnb,
      scanLoop_cons, if_neg hb]

/-- Witness for C2, first part: the interface owning 192.0.2.10 fills both
fields, so a loopback interface after it does not change the result. -/
theorem getSystemInfo_early_exit_witness :
    getSystemInfo (some "host") (some ([] ++ ethIface :: [loIface])) =
      getSystemInfo (some "host") (some ([] ++ ethIface :: [])) :=
  (getSystemInfo_early_exit (some "host") [] [loIface] [] ethIface
    (by simp [noBreakRun])).1 (by decide)

/-- C3: when interface enumeration itself fails, `getSystemInfo` does not
return a value: `log.Fatal` terminates the process, modelled by `none`. -/
theorem getSystemInfo_enumeration_failure_fatal (h : Option String) :
    getSystemInfo h none = none := rfl

/-- C4: when no interface owns a qualifying (non-loopback IPv4) address,
the resolver still returns (no failure is signalled) and both the IP and
hardware-address fields are the empty string. -/
theorem getSystemInfo_no_qualifying_empty (h : Option String)
    (l : List Interface) (hl : ∀ i ∈ l, ¬ hasQual i) :
    getSystemInfo h (some l) = some (hostnameOf h, "", "") := by
  rw [getSystemInfo_some, scanLoop_neutral hl]

/-- Witness for C4: a list holding only a loopback interface yields empty
IP and hardware-address fields. -/
theorem getSystemInfo_no_qualifying_empty_witness :
    getSystemInfo (some "host") (some [loIface]) = some ("host", "", "") :=
  getSystemInfo_no_qualifying_empty (some "host") [loIface] (by decide)

/-- C5: the resolver is a function of the network configuration alone: two
calls on the same hostname result and interface list yield the same
triple. -/
theorem getSystemInfo_deterministic (h : Option String)
    (ifres : Option (List Interface)) (r₁ r₂ : Option (String × String × String))
    (h₁ : getSystemInfo h ifres = r₁) (h₂ : getSystemInfo h ifres = r₂) :
    r₁ = r₂ :=
  h₁.symm.trans h₂

/-- Witness for C5: two evaluations on the same configuration agree. -/
theorem getSystemInfo_deterministic_witness :
    some (("host", "192.0.2.10", "aa:bb:cc:dd:ee:ff") : String × String × String) =
      some ("host", "192.0.2.10", "aa:bb:cc:dd:ee:ff") :=
  getSystemInfo_deterministic (some "host") (some [ethIface]) _ _ rfl rfl

/-- C6: a failed hostname query is non-fatal and leaves the hostname field
empty, and the IP and hardware-address fields do not depend on the
hostname query result at all. -/
theorem getSystemInfo_hostname_independent (h₁ h₂ : Option String)
    (ifres : Option (List Interface)) (l : List Interface) :
    (∃ t, getSystemInfo none (some l) = some t ∧ t.1 = "") ∧
    (getSystemInfo h₁ ifres).map (fun t => (t.2.1, t.2.2)) =
      (getSystemInfo h₂ ifres).map (fun t => (t.2.1, t.2.2)) := by
  constructor
  · exact ⟨_, rfl, rfl⟩
  · cases ifres <;> rfl

/-- C7: on a list holding one interface owning 192.0.2.10 with hardware
address aa:bb:cc:dd:ee:ff, the resolver returns exactly that pair. -/
theorem getSystemInfo_single_qualifying_pair (h : Option String) :
    getSystemInfo h (some [ethIface]) =
      some (hostnameOf h, "192.0.2.10", "aa:bb:cc:dd:ee:ff") := rfl

/-- C8: an interface owning only IPv6 addresses (every address is an
`IPNet` whose `To4` is nil) is skipped: the resolver result on a list
containing it equals the result on the list with it removed. -/
theorem getSystemInfo_skips_ipv6_only (h : Option String)
    (pre post : List Interface) (j : Interface) (as : List Addr)
    (haddrs : j.addrs = some as)
    (hv6 : ∀ a ∈ as, ∃ ip, a = Addr.ipNet ip ∧ to4 ip = none) :
    getSystemInfo h (some (pre ++ j :: post)) =
      getSystemInfo h (some (pre ++ post)) := by
  have hnone : firstQualIp as = none := by
    apply firstQualIp_eq_none
    intro a ha
    obtain ⟨ip, rfl, hip⟩ := hv6 a ha
    simp [qualifies, hip]
  have hstep : ∀ s, step s j = s := fun s => by simp [step, haddrs, hnone]
  rw [getSystemInfo_some, getSystemInfo_some,
    scanLoop_middle_neutral hstep pre post ("", "") (by simp)]

/-- Witness for C8: an IPv6-only interface before the interface owning
192.0.2.10 does not change the result. -/
theorem getSystemInfo_skips_ipv6_only_witness :
    getSystemInfo (some "host") (some ([] ++ v6Iface :: [ethIface])) =
      getSystemInfo (some "host") (some ([] ++ [ethIface])) :=
  getSystemInfo_skips_ipv6_only (some "host") [] [ethIface] v6Iface
    [Addr.ipNet [32, 1, 13, 184, 0, 0, 0, 0, 0, 0, 0, 0, 0, 0, 0, 1]] rfl
    (by
      intro a ha
      rw [List.mem_singleton] at ha
      exact ⟨[32, 1, 13, 184, 0, 0, 0, 0, 0, 0, 0, 0, 0, 0, 0, 1], ha, by decide⟩)

/-- C9: whenever the returned IP field is non-empty, both the IP string
and the hardware-address string come from one and the same interface of
the list: that interface owns a first qualifying address whose string is
the IP field, and its hardware-address string is the MAC field. -/
theorem getSystemInfo_pair_same_interface (h : Option String)
    (l : List Interface) (t : String × String × String)
    (ht : getSystemInfo h (some l) = some t) (hip : t.2.1 ≠ "") :
    ∃ i, i ∈ l ∧ ∃ as ip, i.addrs = some as ∧ firstQualIp as = some ip ∧
      t.2.1 = ipToString ip ∧ t.2.2 = macToString i.hardwareAddr := by
  rw [getSystemInfo_some] at ht
  have hteq : t = (hostnameOf h, (scanLoop ("", "") l).1, (scanLoop ("", "") l).2) :=
    (Option.some_injective _ ht).symm
  have hne : (scanLoop ("", "") l).1 ≠ "" := by
    rw [hteq] at hip
    exact hip
  have hpf := scanLoop_pairFrom l [] ("", "") (fun habs => absurd rfl habs) hne
  rw [List.nil_append] at hpf
  obtain ⟨i, hi, as, ip, ha, hf, h1, h2⟩ := hpf
  exact ⟨i, hi, as, ip, ha, hf, by rw [hteq]; exact h1, by rw [hteq]; exact h2⟩

/-- Witness for C9: on the single-interface list owning 192.0.2.10, the
returned pair indeed comes from that interface. -/
theorem getSystemInfo_pair_same_interface_witness :
    ∃ i, i ∈ [ethIface] ∧ ∃ as ip, i.addrs = some as ∧
      firstQualIp as = some ip ∧
      (("host", "192.0.2.10", "aa:bb:cc:dd:ee:ff") : String × String × String).2.1 =
        ipToString ip ∧
      (("host", "192.0.2.10", "aa:bb:cc:dd:ee:ff") : String × String × String).2.2 =
        macToString i.hardwareAddr :=
  getSystemInfo_pair_same_interface (some "host") [ethIface]
    ("host", "192.0.2.10", "aa:bb:cc:dd:ee:ff") rfl (by decide)

/-- C10: an interface whose `Addrs()` call fails is silently skipped: the
result equals the result on the list with it removed, and the resolver
still returns a value (the failure is never fatal). -/
theorem getSystemInfo_addrs_error_nonfatal (h : Option String)
    (pre post : List Interface) (e : Interface) (he : e.addrs = none) :
    getSystemInfo h (some (pre ++ e :: post)) =
        getSystemInfo h (some (pre ++ post)) ∧
    getSystemInfo h (some (pre ++ e :: post)) ≠ none := by
  have hstep : ∀ s, step s e = s := fun s => by simp [step, he]
  constructor
  · rw [getSystemInfo_some, getSystemInfo_some,
      scanLoop_middle_neutral hstep pre post ("", "") (by simp)]
  · rw [getSystemInfo_some]
    exact Option.some_ne_none _

/-- Witness for C10: an interface with a failing `Addrs()` call before the
interface owning 192.0.2.10 neither aborts nor changes the result. -/
theorem getSystemInfo_addrs_error_nonfatal_witness :
    getSystemInfo (some "host") (some ([] ++ errIface :: [ethIface])) =
        getSystemInfo (some "host") (some ([] ++ [ethIface])) ∧
    getSystemInfo (some "host") (some ([] ++ errIface :: [ethIface])) ≠ none :=
  getSystemInfo_addrs_error_nonfatal (some "host") [] [ethIface] errIface rfl
